import Mathlib

/-
Verification of the collection domain and feature-flag services of the
engagement-team-CI/oppia repository.

The development shallowly embeds the Python code of
core/domain/collection_domain.py and
core/domain/platform_feature_services.py as Lean definitions, and proves
theorems about them.

Modelling conventions:
  - Python dicts parsed from YAML are modelled as records of optional,
    typed fields restricted to the keys the code actually touches; an
    absent key is `none`.  Reading or deleting an absent key yields the
    Python KeyError, modelled through the `Except` monad.
  - `feconf.CURRENT_COLLECTION_SCHEMA_VERSION` is not under src/; its
    value 6 is pinned by the conversion chain itself (conversion methods
    exist exactly for v1..v5 to v6) and by collection_domain_test.py,
    whose latest YAML fixture is schema_version 6.
  - `constants.DEFAULT_LANGUAGE_CODE` is pinned to "en" by the v1 to v2
    migration fixtures in collection_domain_test.py.
  - Python in-place mutation is modelled functionally: each operation
    returns the updated record, and exceptional exits return an error
    value instead.
-/

namespace Oppia

/-- The schema version every collection record is migrated to
(feconf.CURRENT_COLLECTION_SCHEMA_VERSION, pinned to 6 by the conversion
chain and the repository tests). -/
def CURRENT_COLLECTION_SCHEMA_VERSION : Nat := 6

/-- constants.DEFAULT_LANGUAGE_CODE, pinned to "en" by the migration
fixtures in collection_domain_test.py. -/
def DEFAULT_LANGUAGE_CODE : String := "en"

/-- Errors raised by the migration code: utils.InvalidInputException, the
bare `Exception` raised for an out-of-range schema version, Python
KeyError (reading or deleting a missing dict key), and Python
AttributeError (getattr on a conversion method that does not exist). -/
inductive MigErr where
  | invalidInput : String → MigErr
  | exception : String → MigErr
  | keyError : String → MigErr
  | attributeError : String → MigErr
deriving DecidableEq

/-- A skill entry of the `skills` dict introduced by the v3 to v4
migration: `{'name': ..., 'question_ids': []}`. -/
structure SkillDict where
  name : String
  question_ids : List String
deriving DecidableEq

/-- A node dict as it appears inside the `nodes` list of a collection
dict parsed from YAML.  `exploration_id` is the one field every schema
version keeps; the four skill fields exist only at some schema versions,
hence are optional. -/
structure NodeDict where
  exploration_id : String
  prerequisite_skills : Option (List String) := none
  acquired_skills : Option (List String) := none
  prerequisite_skill_ids : Option (List String) := none
  acquired_skill_ids : Option (List String) := none
deriving DecidableEq

/-- A collection dict parsed from YAML (also used for the
collection-contents blob of the versioned datastore model), restricted to
the keys the migration code reads, writes or deletes.  An absent key is
`none`. -/
structure CollectionVDict where
  id : Option String := none
  title : Option String := none
  category : Option String := none
  objective : Option String := none
  language_code : Option String := none
  tags : Option (List String) := none
  schema_version : Option Int := none
  nodes : Option (List NodeDict) := none
  skills : Option (List (String × SkillDict)) := none
  next_skill_id : Option Nat := none
  next_skill_index : Option Nat := none
deriving DecidableEq

/-- Insertion of a string into a sorted list (ascending). -/
def insertSorted (s : String) : List String → List String
  | [] => [s]
  | x :: xs => if s ≤ x then s :: x :: xs else x :: insertSorted s xs

/-- Python `sorted(skill_names)` where skill_names is a set: the sorted
list of the distinct elements. -/
def sortedDedup (l : List String) : List String :=
  l.dedup.foldr insertSorted []

/-- Position of a string in a list (Python: the index assigned by
`enumerate` over the sorted distinct skill names). -/
def indexOfStr (s : String) : List String → Nat
  | [] => 0
  | x :: xs => if x = s then 0 else indexOfStr s xs + 1

/-- The skill id assigned to a name by the v3 to v4 migration:
`'skill' + str(index)` with index the position in the sorted name list. -/
def skillIdFor (sortedNames : List String) (name : String) : String :=
  "skill" ++ toString (indexOfStr name sortedNames)

/-- The first loop of _convert_collection_contents_v3_dict_to_v4_dict:
reads `acquired_skills` then `prerequisite_skills` of each node in order,
raising KeyError at the first missing key. -/
def collectNodeSkills :
    List NodeDict → Except MigErr (List (NodeDict × List String × List String))
  | [] => .ok []
  | n :: ns =>
    match n.acquired_skills with
    | none => .error (.keyError "acquired_skills")
    | some acq =>
      match n.prerequisite_skills with
      | none => .error (.keyError "prerequisite_skills")
      | some pre =>
        match collectNodeSkills ns with
        | .error e => .error e
        | .ok rest => .ok ((n, pre, acq) :: rest)

/-- Collection._convert_collection_contents_v1_dict_to_v2_dict: does
nothing. -/
def _convert_collection_contents_v1_dict_to_v2_dict
    (collection_contents : CollectionVDict) : CollectionVDict :=
  collection_contents

/-- Collection._convert_collection_contents_v2_dict_to_v3_dict: does
nothing. -/
def _convert_collection_contents_v2_dict_to_v3_dict
    (collection_contents : CollectionVDict) : CollectionVDict :=
  collection_contents

/-- Collection._convert_collection_contents_v3_dict_to_v4_dict: collects
the skill names of all nodes, assigns them ids by sorted position,
rewrites each node to the {exploration_id, prerequisite_skill_ids,
acquired_skill_ids} shape, and adds the `skills` dict and
`next_skill_id` counter. -/
def _convert_collection_contents_v3_dict_to_v4_dict
    (collection_contents : CollectionVDict) : Except MigErr CollectionVDict :=
  match collection_contents.nodes with
  | none => .error (.keyError "nodes")
  | some ns =>
    match collectNodeSkills ns with
    | .error e => .error e
    | .ok triples =>
      let skillNames :=
        sortedDedup (triples.foldl (fun acc t => acc ++ t.2.2 ++ t.2.1) [])
      let toId := skillIdFor skillNames
      .ok { collection_contents with
            nodes := some (triples.map (fun t =>
              { exploration_id := t.1.exploration_id,
                prerequisite_skill_ids := some (t.2.1.map toId),
                acquired_skill_ids := some (t.2.2.map toId) })),
            skills := some (skillNames.map (fun name =>
              (toId name, { name := name, question_ids := [] }))),
            next_skill_id := some skillNames.length }

/-- Collection._convert_collection_contents_v4_dict_to_v5_dict: renames
`next_skill_id` to `next_skill_index` (reading the old key raises
KeyError when it is absent). -/
def _convert_collection_contents_v4_dict_to_v5_dict
    (collection_contents : CollectionVDict) : Except MigErr CollectionVDict :=
  match collection_contents.next_skill_id with
  | none => .error (.keyError "next_skill_id")
  | some k =>
    .ok { collection_contents with
          next_skill_index := some k, next_skill_id := none }

/-- The node loop of _convert_collection_contents_v5_dict_to_v6_dict:
`del node['prerequisite_skill_ids']; del node['acquired_skill_ids']` for
each node, raising KeyError at the first missing key. -/
def delNodeSkillIds : List NodeDict → Except MigErr (List NodeDict)
  | [] => .ok []
  | n :: ns =>
    match n.prerequisite_skill_ids with
    | none => .error (.keyError "prerequisite_skill_ids")
    | some _ =>
      match n.acquired_skill_ids with
      | none => .error (.keyError "acquired_skill_ids")
      | some _ =>
        match delNodeSkillIds ns with
        | .error e => .error e
        | .ok rest =>
          .ok ({ n with prerequisite_skill_ids := none,
                        acquired_skill_ids := none } :: rest)

/-- Collection._convert_collection_contents_v5_dict_to_v6_dict: removes
the two skill-id keys from every node. -/
def _convert_collection_contents_v5_dict_to_v6_dict
    (collection_contents : CollectionVDict) : Except MigErr CollectionVDict :=
  match collection_contents.nodes with
  | none => .error (.keyError "nodes")
  | some ns =>
    match delNodeSkillIds ns with
    | .error e => .error e
    | .ok ns' => .ok { collection_contents with nodes := some ns' }

/-- Collection._convert_v1_dict_to_v2_dict: sets schema_version to 2 and
adds a language code and tags. -/
def _convert_v1_dict_to_v2_dict (collection_dict : CollectionVDict) :
    CollectionVDict :=
  { collection_dict with
    schema_version := some 2,
    language_code := some DEFAULT_LANGUAGE_CODE,
    tags := some [] }

/-- Collection._convert_v2_dict_to_v3_dict: only sets schema_version
to 3. -/
def _convert_v2_dict_to_v3_dict (collection_dict : CollectionVDict) :
    CollectionVDict :=
  { collection_dict with schema_version := some 3 }

/-- Collection._convert_v3_dict_to_v4_dict: applies the contents v3 to v4
conversion (in the source the contents dict and the collection dict are
the same aliased object, so copying 'skills' and 'next_skill_id' over is
a no-op) and sets schema_version to 4. -/
def _convert_v3_dict_to_v4_dict (collection_dict : CollectionVDict) :
    Except MigErr CollectionVDict :=
  match _convert_collection_contents_v3_dict_to_v4_dict collection_dict with
  | .error e => .error e
  | .ok d => .ok { d with schema_version := some 4 }

/-- Collection._convert_v4_dict_to_v5_dict: applies the contents v4 to v5
conversion (in place in the source) and sets schema_version to 5. -/
def _convert_v4_dict_to_v5_dict (collection_dict : CollectionVDict) :
    Except MigErr CollectionVDict :=
  match _convert_collection_contents_v4_dict_to_v5_dict collection_dict with
  | .error e => .error e
  | .ok d => .ok { d with schema_version := some 5 }

/-- Collection._convert_v5_dict_to_v6_dict: deletes the `skills` and
`next_skill_index` keys of the collection dict (KeyError when absent; the
node-level skill ids are NOT touched by this conversion, which does not
call the contents converter) and sets schema_version to 6. -/
def _convert_v5_dict_to_v6_dict (collection_dict : CollectionVDict) :
    Except MigErr CollectionVDict :=
  match collection_dict.skills with
  | none => .error (.keyError "skills")
  | some _ =>
    match collection_dict.next_skill_index with
    | none => .error (.keyError "next_skill_index")
    | some _ =>
      .ok { collection_dict with
            skills := none, next_skill_index := none,
            schema_version := some 6 }

/-- The `getattr(cls, '_convert_v%s_dict_to_v%s_dict' % (v, v + 1))`
dispatch followed by the call: for v outside 1..5 there is no such
method and Python raises AttributeError. -/
def convertStep (v : Nat) (d : CollectionVDict) :
    Except MigErr CollectionVDict :=
  match v with
  | 1 => .ok (_convert_v1_dict_to_v2_dict d)
  | 2 => .ok (_convert_v2_dict_to_v3_dict d)
  | 3 => _convert_v3_dict_to_v4_dict d
  | 4 => _convert_v4_dict_to_v5_dict d
  | 5 => _convert_v5_dict_to_v6_dict d
  | _ =>
    .error (.attributeError
      ("_convert_v" ++ toString v ++ "_dict_to_v" ++ toString (v + 1)
        ++ "_dict"))

/-- The while loop of Collection._migrate_to_latest_yaml_version:
while version < CURRENT, apply the conversion for the current version and
increment it. -/
def migrateLoop (v : Nat) (d : CollectionVDict) :
    Except MigErr CollectionVDict :=
  if h : v < CURRENT_COLLECTION_SCHEMA_VERSION then
    match convertStep v d with
    | .error e => .error e
    | .ok d' => migrateLoop (v + 1) d'
  else
    .ok d
termination_by CURRENT_COLLECTION_SCHEMA_VERSION - v
decreasing_by simp [CURRENT_COLLECTION_SCHEMA_VERSION] at h ⊢; omega

/-- Collection._migrate_to_latest_yaml_version, taking the dict already
parsed from YAML (the YAML-parsing failure branch, which re-raises the
parser's InvalidInputException, is before this point and outside the
model).  An absent or null schema_version key raises
InvalidInputException; a version outside 1..CURRENT raises the bare
Exception; otherwise the conversion chain runs. -/
def _migrate_to_latest_yaml_version (collection_dict : CollectionVDict) :
    Except MigErr CollectionVDict :=
  match collection_dict.schema_version with
  | none => .error (.invalidInput "Invalid YAML file: no schema version specified.")
  | some v =>
    if 1 ≤ v ∧ v ≤ (CURRENT_COLLECTION_SCHEMA_VERSION : Int) then
      migrateLoop v.toNat collection_dict
    else
      .error (.exception
        "Sorry, we can only process v1 to v6 collection YAML files at present.")

/-- The `getattr(cls, '_convert_collection_contents_v%s_dict_to_v%s_dict'
% (v, v + 1))` dispatch followed by the call; AttributeError for v
outside 1..5. -/
def contentsConvertStep (v : Nat) (d : CollectionVDict) :
    Except MigErr CollectionVDict :=
  match v with
  | 1 => .ok (_convert_collection_contents_v1_dict_to_v2_dict d)
  | 2 => .ok (_convert_collection_contents_v2_dict_to_v3_dict d)
  | 3 => _convert_collection_contents_v3_dict_to_v4_dict d
  | 4 => _convert_collection_contents_v4_dict_to_v5_dict d
  | 5 => _convert_collection_contents_v5_dict_to_v6_dict d
  | _ =>
    .error (.attributeError
      ("_convert_collection_contents_v" ++ toString v ++ "_dict_to_v"
        ++ toString (v + 1) ++ "_dict"))

/-- The versioned collection contents blob handed to
Collection.update_collection_contents_from_model: a dict with a
schema_version key and a collection_contents sub-dict. -/
structure VersionedCollectionContents where
  schema_version : Int
  collection_contents : CollectionVDict
deriving DecidableEq

/-- Collection.update_collection_contents_from_model.  The source raises
the explicit Exception when schema_version + 1 > CURRENT, before any
mutation; otherwise it sets schema_version to current_version + 1 and
replaces collection_contents with the conversion result (the conversion
lookup and the conversion itself can fail, modelled through `Except`). -/
def update_collection_contents_from_model
    (versioned_collection_contents : VersionedCollectionContents)
    (current_version : Nat) : Except MigErr VersionedCollectionContents :=
  if versioned_collection_contents.schema_version + 1 >
      (CURRENT_COLLECTION_SCHEMA_VERSION : Int) then
    .error (.exception
      ("Collection is version "
        ++ toString versioned_collection_contents.schema_version
        ++ " but current collection schema version is 6"))
  else
    match contentsConvertStep current_version
        versioned_collection_contents.collection_contents with
    | .error e => .error e
    | .ok contents =>
      .ok { schema_version := (current_version : Int) + 1,
            collection_contents := contents }

/-- CollectionNode: a node of a collection, holding the id of the
exploration it references. -/
structure CollectionNode where
  exploration_id : String
deriving DecidableEq, Inhabited

/-- CollectionNode.to_dict: `{'exploration_id': ...}`. -/
structure CollectionNodeDict where
  exploration_id : String
deriving DecidableEq

/-- CollectionNode.to_dict. -/
def CollectionNode.to_dict (n : CollectionNode) : CollectionNodeDict :=
  { exploration_id := n.exploration_id }

/-- CollectionNode.from_dict. -/
def CollectionNode.from_dict (node_dict : CollectionNodeDict) :
    CollectionNode :=
  { exploration_id := node_dict.exploration_id }

/-- The Collection domain object.  Naive datetimes (created_on,
last_updated) are modelled as abstract time stamps (Nat); they are
optional because the constructor defaults them to None. -/
structure Collection where
  id : String
  title : String
  category : String
  objective : String
  language_code : String
  tags : List String
  schema_version : Int
  nodes : List CollectionNode
  version : Int
  created_on : Option Nat := none
  last_updated : Option Nat := none
deriving DecidableEq

/-- The dict produced by Collection.to_dict. -/
structure CollectionToDict where
  id : String
  title : String
  category : String
  objective : String
  language_code : String
  tags : List String
  schema_version : Int
  nodes : List CollectionNodeDict
deriving DecidableEq

/-- Collection.to_dict. -/
def Collection.to_dict (c : Collection) : CollectionToDict :=
  { id := c.id, title := c.title, category := c.category,
    objective := c.objective, language_code := c.language_code,
    tags := c.tags, schema_version := c.schema_version,
    nodes := c.nodes.map CollectionNode.to_dict }

/-- Collection.from_dict: rebuilds a Collection from a to_dict-shaped
dict plus the separately passed version and datetimes. -/
def Collection.from_dict (collection_dict : CollectionToDict)
    (collection_version : Int := 0)
    (collection_created_on : Option Nat := none)
    (collection_last_updated : Option Nat := none) : Collection :=
  { id := collection_dict.id, title := collection_dict.title,
    category := collection_dict.category,
    objective := collection_dict.objective,
    language_code := collection_dict.language_code,
    tags := collection_dict.tags,
    schema_version := collection_dict.schema_version,
    nodes := collection_dict.nodes.map CollectionNode.from_dict,
    version := collection_version,
    created_on := collection_created_on,
    last_updated := collection_last_updated }

/-- The JSON object written by Collection.serialize: the to_dict fields
plus the version and, when present, the datetimes rendered as strings.
The json.dumps/json.loads round trip of the Python standard library is
modelled as the identity on this object. -/
structure SerializedCollection where
  dict : CollectionToDict
  version : Int
  created_on : Option String
  last_updated : Option String
deriving DecidableEq

/-- Collection.serialize.  `dtToStr` stands for the external
utils.convert_naive_datetime_to_string (utils.py is not under src/).
The `if self.created_on:` truthiness test is isSome: datetime objects
are always truthy. -/
def Collection.serialize (dtToStr : Nat → String) (c : Collection) :
    SerializedCollection :=
  { dict := c.to_dict,
    version := c.version,
    created_on := c.created_on.map dtToStr,
    last_updated := c.last_updated.map dtToStr }

/-- Collection.deserialize.  `strToDt` stands for the external
utils.convert_string_to_naive_datetime_object. -/
def Collection.deserialize (strToDt : String → Nat)
    (s : SerializedCollection) : Collection :=
  Collection.from_dict s.dict s.version
    (s.created_on.map strToDt) (s.last_updated.map strToDt)

/-- Collection.exploration_ids: the exploration ids of the nodes, in
node order. -/
def Collection.exploration_ids (c : Collection) : List String :=
  c.nodes.map (fun n => n.exploration_id)

/-- Collection.get_next_exploration_id: the first exploration id not yet
completed, or none when every one is completed. -/
def Collection.get_next_exploration_id (c : Collection)
    (completed_exp_ids : List String) : Option String :=
  c.exploration_ids.find? (fun exp_id => ! completed_exp_ids.contains exp_id)

/-- Errors raised by Collection.swap_nodes: the explicit ValueError for
equal indices, and Python IndexError for an out-of-range list access. -/
inductive SwapError where
  | valueError : String → SwapError
  | indexError : SwapError
deriving DecidableEq

/-- Python list indexing: an index i is valid for a list of length n when
-n <= i < n, negative indices counting from the end. -/
def pyIndex (n : Nat) (i : Int) : Option Nat :=
  if 0 ≤ i ∧ i < (n : Int) then some i.toNat
  else if -(n : Int) ≤ i ∧ i < 0 then some (i + n).toNat
  else none

/-- Collection.swap_nodes: ValueError when the two indices are equal,
otherwise the nodes at the two positions are exchanged (IndexError when
either index is out of range; both reads happen on the original list
before the writes). -/
def Collection.swap_nodes (c : Collection)
    (first_index second_index : Int) : Except SwapError Collection :=
  if first_index = second_index then
    .error (.valueError "Both indices point to the same collection node.")
  else
    match pyIndex c.nodes.length first_index,
          pyIndex c.nodes.length second_index with
    | some i, some j =>
      let nodes' :=
        (c.nodes.set i (c.nodes.getD j default)).set j (c.nodes.getD i default)
      .ok { c with nodes := nodes' }
    | _, _ => .error .indexError

/-- Python `\s` on the ASCII range: space, tab, newline, carriage
return, form feed, vertical tab. -/
def isPyWhitespace (c : Char) : Bool :=
  c = ' ' || c = '\t' || c = '\n' || c.val = 13 || c.val = 12 || c.val = 11

/-- Python `re.search(r'\s\s+', tag)`: the tag has two (or more)
adjacent whitespace characters. -/
def hasAdjacentWhitespaceAux : List Char → Bool
  | a :: b :: rest =>
    (isPyWhitespace a && isPyWhitespace b) || hasAdjacentWhitespaceAux (b :: rest)
  | _ => false

/-- Whether a string contains adjacent whitespace. -/
def hasAdjacentWhitespace (s : String) : Bool :=
  hasAdjacentWhitespaceAux s.data

/-- The per-tag checks of Collection.validate, in source order: tag
nonempty, the TAG_REGEX match, first and last character in
string.ascii_lowercase, no adjacent whitespace.  `tagRegexMatch` stands
for `re.match(constants.TAG_REGEX, tag)` (the constants module is not
under src/).  The isinstance check is vacuous in the typed embedding. -/
def tagError (tagRegexMatch : String → Bool) (tag : String) :
    Option String :=
  if tag = "" then some "Tags should be non-empty."
  else if ! tagRegexMatch tag then
    some ("Tags should only contain lowercase letters and spaces, received \x27"
      ++ tag ++ "\x27")
  else if ! (tag.front.isLower && tag.back.isLower) then
    some ("Tags should not start or end with whitespace, received  \x27"
      ++ tag ++ "\x27")
  else if hasAdjacentWhitespace tag then
    some ("Adjacent whitespace in tags should be collapsed, received \x27"
      ++ tag ++ "\x27")
  else none

/-- The sequence of checks Collection.validate runs, in source order,
each yielding the ValidationError message it would raise.  The
isinstance checks are vacuous in the typed embedding and the node-level
CollectionNode.validate only contains such a check.  `rvn` stands for
the external utils.require_valid_name (with allow_empty=True) and `ivl`
for the external utils.is_valid_language_code (utils.py is not under
src/). -/
def Collection.validateChecks (rvn : String → String → Option String)
    (ivl : String → Bool) (tagRegexMatch : String → Bool)
    (c : Collection) (strict : Bool) : List (Option String) :=
  [rvn c.title "the collection title",
   rvn c.category "the collection category",
   if c.language_code = "" then
     some "A language must be specified (in the \x27Settings\x27 tab)."
   else none,
   if ! ivl c.language_code then
     some ("Invalid language code: " ++ c.language_code)
   else none,
   if c.tags.Nodup then none
   else some "Expected tags to be unique, but found duplicates",
   c.tags.findSome? (tagError tagRegexMatch),
   if c.schema_version = (CURRENT_COLLECTION_SCHEMA_VERSION : Int) then none
   else some ("Expected schema version to be 6, received "
     ++ toString c.schema_version),
   if c.exploration_ids.Nodup then none
   else some "There are explorations referenced in the collection more than once."]
  ++ (if strict then
    [if c.title = "" then
       some "A title must be specified for the collection."
     else none,
     if c.objective = "" then
       some "An objective must be specified for the collection."
     else none,
     if c.category = "" then
       some "A category must be specified for the collection."
     else none,
     if c.nodes = [] then
       some "Expected to have at least 1 exploration in the collection."
     else none]
  else [])

/-- Collection.validate: the message of the first failing check, or none
when the collection passes validation. -/
def Collection.validate (rvn : String → String → Option String)
    (ivl : String → Bool) (tagRegexMatch : String → Bool)
    (c : Collection) (strict : Bool) : Option String :=
  (Collection.validateChecks rvn ivl tagRegexMatch c strict).findSome?
    (fun o => o)

/-- The CollectionSummary domain object.  The contributors summary dict
is modelled as an association list in insertion order. -/
structure CollectionSummary where
  id : String
  title : String
  category : String
  objective : String
  language_code : String
  tags : List String
  status : String
  community_owned : Bool
  owner_ids : List String
  editor_ids : List String
  viewer_ids : List String
  contributor_ids : List String
  contributors_summary : List (String × Nat)
  version : Int
  node_count : Nat
  collection_model_created_on : Option Nat := none
  collection_model_last_updated : Option Nat := none
deriving DecidableEq

/-- Python `d.get(k, dflt)` on the contributors summary dict. -/
def dictGetD : List (String × Nat) → String → Nat → Nat
  | [], _, dflt => dflt
  | (k', v) :: t, k, dflt => if k' = k then v else dictGetD t k dflt

/-- Python `d[k] = v` on the contributors summary dict: replaces the
value in place when the key exists, appends the key otherwise. -/
def dictSet : List (String × Nat) → String → Nat → List (String × Nat)
  | [], k, v => [(k, v)]
  | (k', v') :: t, k, v =>
    if k' = k then (k, v) :: t else (k', v') :: dictSet t k v

/-- Python `list(d.keys())`. -/
def dictKeys (l : List (String × Nat)) : List String :=
  l.map (fun p => p.1)

/-- CollectionSummary.is_editable_by: `user_id is not None and (user_id
in self.editor_ids or user_id in self.owner_ids or
self.community_owned)`.  The default argument is None. -/
def CollectionSummary.is_editable_by (s : CollectionSummary)
    (user_id : Option String) : Bool :=
  match user_id with
  | none => false
  | some u =>
    s.editor_ids.contains u || s.owner_ids.contains u || s.community_owned

/-- CollectionSummary.add_contribution_by_user: increments the
contributor entry unless the contributor is a system user, then
reassigns contributor_ids to the keys of the summary dict.
`system_user_ids` stands for constants.SYSTEM_USER_IDS (the constants
module is not under src/). -/
def CollectionSummary.add_contribution_by_user
    (system_user_ids : List String) (s : CollectionSummary)
    (contributor_id : String) : CollectionSummary :=
  let summary :=
    if system_user_ids.contains contributor_id then s.contributors_summary
    else
      dictSet s.contributors_summary contributor_id
        (dictGetD s.contributors_summary contributor_id 0 + 1)
  { s with contributors_summary := summary,
           contributor_ids := dictKeys summary }

/-- Modelled from the spec: the feature-flag registry
(core.domain.platform_parameter_registry) and the feature list
(core.platform_feature_list) are not under src/.  Following the spec
("flag evaluation is a single lookup plus predicate matching over a
small rule list"), the registered flags are an abstract name list
(ALL_FEATURES_NAMES_SET) and the registry is an abstract map from a
name to the evaluation function of its platform parameter. -/
structure FeatureFlagRegistry (Ctx : Type) where
  all_features_names : List String
  evaluate : String → Ctx → Bool

/-- The error raised for unknown feature flags
(FeatureFlagNotFoundException), carrying the unknown names. -/
inductive FeatureFlagError where
  | featureFlagNotFound : List String → FeatureFlagError

/-- _evaluate_feature_flag_values_for_context: raises
FeatureFlagNotFoundException when the requested set contains a name
outside ALL_FEATURES_NAMES_SET, and otherwise returns the dict mapping
each requested name to the evaluation of its registered parameter in
the context. -/
def _evaluate_feature_flag_values_for_context {Ctx : Type}
    (reg : FeatureFlagRegistry Ctx) (feature_names : List String)
    (context : Ctx) : Except FeatureFlagError (List (String × Bool)) :=
  let unknown_feature_names :=
    feature_names.filter (fun n => ! reg.all_features_names.contains n)
  if unknown_feature_names.length > 0 then
    .error (.featureFlagNotFound unknown_feature_names)
  else
    .ok (feature_names.map (fun n => (n, reg.evaluate n context)))

/-- The keys a collection dict must carry for the conversion chain
starting at schema version v to run to completion: versions 1..3 need
the nodes with their two skill-name lists (read by the v3 to v4
conversion); version 4 needs next_skill_id and skills; version 5 needs
skills and next_skill_index (deleted by the v5 to v6 conversion). -/
def nodesHaveSkillNameKeys (d : CollectionVDict) : Bool :=
  match d.nodes with
  | some ns =>
    ns.all (fun n => n.acquired_skills.isSome && n.prerequisite_skills.isSome)
  | none => false

def hasMigrationKeysFrom (v : Nat) (d : CollectionVDict) : Bool :=
  if v ≤ 3 then nodesHaveSkillNameKeys d
  else if v = 4 then d.next_skill_id.isSome && d.skills.isSome
  else if v = 5 then d.skills.isSome && d.next_skill_index.isSome
  else true

lemma migrateLoop_step {v : Nat} (d : CollectionVDict)
    (h : v < CURRENT_COLLECTION_SCHEMA_VERSION) :
    migrateLoop v d =
      match convertStep v d with
      | .error e => .error e
      | .ok d' => migrateLoop (v + 1) d' := by
  rw [migrateLoop]
  simp [h]

lemma migrateLoop_stop {v : Nat} (d : CollectionVDict)
    (h : ¬ v < CURRENT_COLLECTION_SCHEMA_VERSION) :
    migrateLoop v d = .ok d := by
  rw [migrateLoop]
  simp [h]

lemma collectNodeSkills_ok {ns : List NodeDict}
    (h : ∀ n ∈ ns, n.acquired_skills.isSome ∧ n.prerequisite_skills.isSome) :
    ∃ ts, collectNodeSkills ns = .ok ts := by
  induction ns with
  | nil => exact ⟨[], rfl⟩
  | cons n ns ih =>
    obtain ⟨hacq, hpre⟩ := h n (List.mem_cons_self n ns)
    obtain ⟨acq, hacq⟩ := Option.isSome_iff_exists.mp hacq
    obtain ⟨pre, hpre⟩ := Option.isSome_iff_exists.mp hpre
    obtain ⟨ts, hts⟩ := ih (fun m hm => h m (List.mem_cons_of_mem n hm))
    exact ⟨(n, pre, acq) :: ts, by simp [collectNodeSkills, hacq, hpre, hts]⟩

lemma collectNodeSkills_err {ns : List NodeDict} {e : MigErr}
    (h : collectNodeSkills ns = .error e) : ∃ k, e = .keyError k := by
  induction ns with
  | nil => simp [collectNodeSkills] at h
  | cons n ns ih =>
    rw [collectNodeSkills] at h
    split at h
    · exact ⟨"acquired_skills", by injection h with h; exact h.symm⟩
    · split at h
      · exact ⟨"prerequisite_skills", by injection h with h; exact h.symm⟩
      · split at h
        · next e' heq =>
          injection h with h
          exact ih (h ▸ heq)
        · simp at h

lemma contents3to4_err {d : CollectionVDict} {e : MigErr}
    (h : _convert_collection_contents_v3_dict_to_v4_dict d = .error e) :
    ∃ k, e = .keyError k := by
  rw [_convert_collection_contents_v3_dict_to_v4_dict] at h
  split at h
  · exact ⟨"nodes", by injection h with h; exact h.symm⟩
  · split at h
    · next e' heq =>
      injection h with h
      exact h ▸ collectNodeSkills_err heq
    · simp at h

lemma contents4to5_err {d : CollectionVDict} {e : MigErr}
    (h : _convert_collection_contents_v4_dict_to_v5_dict d = .error e) :
    ∃ k, e = .keyError k := by
  rw [_convert_collection_contents_v4_dict_to_v5_dict] at h
  split at h
  · exact ⟨"next_skill_id", by injection h with h; exact h.symm⟩
  · simp at h

lemma conv5_err {d : CollectionVDict} {e : MigErr}
    (h : _convert_v5_dict_to_v6_dict d = .error e) : ∃ k, e = .keyError k := by
  rw [_convert_v5_dict_to_v6_dict] at h
  split at h
  · exact ⟨"skills", by injection h with h; exact h.symm⟩
  · split at h
    · exact ⟨"next_skill_index", by injection h with h; exact h.symm⟩
    · simp at h

lemma convertStep_err {v : Nat} {d : CollectionVDict} {e : MigErr}
    (h : convertStep v d = .error e) :
    (∃ k, e = .keyError k) ∨ (∃ s, e = .attributeError s) := by
  match v with
  | 0 => exact .inr ⟨_, by simpa [convertStep] using h.symm⟩
  | 1 => simp [convertStep] at h
  | 2 => simp [convertStep] at h
  | 3 =>
    rw [convertStep, _convert_v3_dict_to_v4_dict] at h
    split at h
    · next e' heq =>
      injection h with h
      exact .inl (h ▸ contents3to4_err heq)
    · simp at h
  | 4 =>
    rw [convertStep, _convert_v4_dict_to_v5_dict] at h
    split at h
    · next e' heq =>
      injection h with h
      exact .inl (h ▸ contents4to5_err heq)
    · simp at h
  | 5 => exact .inl (conv5_err h)
  | (n + 6) => exact .inr ⟨_, by simpa [convertStep] using h.symm⟩

lemma migrateLoop_err :
    ∀ (fuel v : Nat) (d : CollectionVDict) (e : MigErr),
      CURRENT_COLLECTION_SCHEMA_VERSION - v = fuel →
      migrateLoop v d = .error e →
      (∃ k, e = .keyError k) ∨ (∃ s, e = .attributeError s) := by
  intro fuel
  induction fuel with
  | zero =>
    intro v d e hf h
    rw [migrateLoop_stop d (by omega)] at h
    simp at h
  | succ m ih =>
    intro v d e hf h
    rw [migrateLoop_step d (by omega)] at h
    cases hc : convertStep v d with
    | error e' =>
      rw [hc] at h
      simp at h
      exact h ▸ convertStep_err hc
    | ok d' =>
      rw [hc] at h
      exact ih (v + 1) d' e (by omega) h

lemma migrateLoop_eq_foldlM :
    ∀ (fuel v : Nat) (d : CollectionVDict),
      CURRENT_COLLECTION_SCHEMA_VERSION - v = fuel →
      migrateLoop v d =
        (List.range' v fuel).foldlM (fun d k => convertStep k d) d := by
  intro fuel
  induction fuel with
  | zero =>
    intro v d hf
    rw [migrateLoop_stop d (by omega)]
    rfl
  | succ m ih =>
    intro v d hf
    rw [migrateLoop_step d (by omega), List.range'_succ]
    cases hc : convertStep v d with
    | error e =>
      simp only [List.foldlM_cons, hc]
      rfl
    | ok d' =>
      simp only [List.foldlM_cons, hc]
      rw [ih (v + 1) d' (by omega)]
      rfl

lemma convertStep_keys {v : Nat} {d : CollectionVDict}
    (h1 : 1 ≤ v) (h5 : v ≤ 5) (hk : hasMigrationKeysFrom v d = true) :
    ∃ d', convertStep v d = .ok d' ∧ hasMigrationKeysFrom (v + 1) d' = true ∧
      (v = 5 → d'.schema_version = some 6) := by
  interval_cases v
  · refine ⟨_, rfl, ?_, by intro h; simp at h⟩
    simp only [hasMigrationKeysFrom] at hk ⊢
    norm_num
    simpa [nodesHaveSkillNameKeys, _convert_v1_dict_to_v2_dict] using hk
  · refine ⟨_, rfl, ?_, by intro h; simp at h⟩
    simp only [hasMigrationKeysFrom] at hk ⊢
    norm_num
    simpa [nodesHaveSkillNameKeys, _convert_v2_dict_to_v3_dict] using hk
  · simp only [hasMigrationKeysFrom] at hk
    norm_num [nodesHaveSkillNameKeys] at hk
    cases hn : d.nodes with
    | none => rw [hn] at hk; simp at hk
    | some ns =>
      rw [hn] at hk
      simp only [List.all_eq_true, Bool.and_eq_true, Option.isSome_iff_exists]
        at hk
      have hcol : ∃ ts, collectNodeSkills ns = .ok ts := by
        apply collectNodeSkills_ok
        intro n hm
        have := hk n hm
        constructor
        · obtain ⟨⟨a, ha⟩, _⟩ := this
          simp [ha]
        · obtain ⟨_, b, hb⟩ := this
          simp [hb]
      obtain ⟨ts, hts⟩ := hcol
      exact ⟨_,
        by rw [convertStep, _convert_v3_dict_to_v4_dict,
             _convert_collection_contents_v3_dict_to_v4_dict, hn]
           dsimp only
           rw [hts],
        by simp [hasMigrationKeysFrom],
        by intro h; simp at h⟩
  · simp only [hasMigrationKeysFrom] at hk
    norm_num at hk
    obtain ⟨hid, hs⟩ := hk
    obtain ⟨k, hid⟩ := Option.isSome_iff_exists.mp hid
    obtain ⟨s, hs⟩ := Option.isSome_iff_exists.mp hs
    exact ⟨_,
      by rw [convertStep, _convert_v4_dict_to_v5_dict,
           _convert_collection_contents_v4_dict_to_v5_dict, hid],
      by simp [hasMigrationKeysFrom, hs],
      by intro h; simp at h⟩
  · simp only [hasMigrationKeysFrom] at hk
    norm_num at hk
    obtain ⟨hs, hq⟩ := hk
    obtain ⟨s, hs⟩ := Option.isSome_iff_exists.mp hs
    obtain ⟨q, hq⟩ := Option.isSome_iff_exists.mp hq
    exact ⟨_,
      by rw [convertStep, _convert_v5_dict_to_v6_dict, hs, hq],
      by simp [hasMigrationKeysFrom],
      by intro _; rfl⟩

lemma migrateLoop_reaches_current :
    ∀ (fuel v : Nat) (d : CollectionVDict),
      CURRENT_COLLECTION_SCHEMA_VERSION - v = fuel →
      1 ≤ v → v ≤ CURRENT_COLLECTION_SCHEMA_VERSION →
      hasMigrationKeysFrom v d = true →
      (v = CURRENT_COLLECTION_SCHEMA_VERSION →
        d.schema_version = some (CURRENT_COLLECTION_SCHEMA_VERSION : Int)) →
      ∃ d', migrateLoop v d = .ok d' ∧
        d'.schema_version = some (CURRENT_COLLECTION_SCHEMA_VERSION : Int) := by
  intro fuel
  induction fuel with
  | zero =>
    intro v d hf h1 h6 _ hend
    have hv : v = CURRENT_COLLECTION_SCHEMA_VERSION := by
      simp [CURRENT_COLLECTION_SCHEMA_VERSION] at *
      omega
    rw [migrateLoop_stop d (by omega)]
    exact ⟨d, rfl, hend hv⟩
  | succ m ih =>
    intro v d hf h1 h6 hk hend
    have hlt : v < CURRENT_COLLECTION_SCHEMA_VERSION := by omega
    have h5 : v ≤ 5 := by
      simp [CURRENT_COLLECTION_SCHEMA_VERSION] at hlt
      omega
    obtain ⟨d', hstep, hk', hsv⟩ := convertStep_keys h1 h5 hk
    rw [migrateLoop_step d hlt, hstep]
    refine ih (v + 1) d' (by omega) (by omega) (by omega) hk' ?_
    intro hv6
    have : v = 5 := by
      simp [CURRENT_COLLECTION_SCHEMA_VERSION] at hv6
      omega
    simpa [CURRENT_COLLECTION_SCHEMA_VERSION] using hsv this

/-- C1 (amended).  For every collection dict parsed from YAML whose
schema version v lies in 1..CURRENT_COLLECTION_SCHEMA_VERSION and which
carries the keys the conversion chain accesses
(hasMigrationKeysFrom), Collection._migrate_to_latest_yaml_version is
exactly the left-to-right fold of the conversion functions
_convert_vk_dict_to_v(k+1)_dict for k = v, v+1, ..., CURRENT-1 (each
applied exactly once, in ascending order), and the dict it returns has
schema_version equal to CURRENT_COLLECTION_SCHEMA_VERSION.  (The fold
equation itself holds for every dict with an in-range version, keys or
not.) -/
theorem migrate_runs_conversion_chain_in_order (d : CollectionVDict)
    (v : Int) (hv : d.schema_version = some v) (h1 : 1 ≤ v)
    (h6 : v ≤ (CURRENT_COLLECTION_SCHEMA_VERSION : Int))
    (hkeys : hasMigrationKeysFrom v.toNat d = true) :
    _migrate_to_latest_yaml_version d =
      (List.range' v.toNat (CURRENT_COLLECTION_SCHEMA_VERSION - v.toNat)).foldlM
        (fun d k => convertStep k d) d ∧
    ∃ d', _migrate_to_latest_yaml_version d = .ok d' ∧
      d'.schema_version = some (CURRENT_COLLECTION_SCHEMA_VERSION : Int) := by
  have hloop : _migrate_to_latest_yaml_version d = migrateLoop v.toNat d := by
    rw [_migrate_to_latest_yaml_version, hv]
    simp [h1, h6]
  constructor
  · rw [hloop]
    exact migrateLoop_eq_foldlM _ v.toNat d rfl
  · rw [hloop]
    have h6' : v ≤ (6 : Int) := by
      simpa [CURRENT_COLLECTION_SCHEMA_VERSION] using h6
    refine migrateLoop_reaches_current _ v.toNat d rfl (by omega)
      (by simp [CURRENT_COLLECTION_SCHEMA_VERSION]; omega) hkeys ?_
    intro hv6
    rw [hv]
    have hv6' : v = (CURRENT_COLLECTION_SCHEMA_VERSION : Int) := by
      simp [CURRENT_COLLECTION_SCHEMA_VERSION] at hv6 ⊢
      omega
    rw [hv6']

/-- A v1 collection dict shaped like the repository's YAML_CONTENT_V1
test fixture. -/
def fixtureV1Dict : CollectionVDict :=
  { title := some "A title", category := some "A category",
    objective := some "", schema_version := some 1,
    nodes := some [
      { exploration_id := "Exp1", prerequisite_skills := some [],
        acquired_skills := some ["Skill1", "Skill2"] },
      { exploration_id := "Exp2", prerequisite_skills := some ["Skill1"],
        acquired_skills := some [] }] }

/-- Witness for C1 (amended): the theorem applied to the v1 test
fixture. -/
theorem migrate_runs_conversion_chain_in_order_witness :
    hasMigrationKeysFrom (1 : Int).toNat fixtureV1Dict = true ∧
    _migrate_to_latest_yaml_version fixtureV1Dict =
      (List.range' (1 : Int).toNat
        (CURRENT_COLLECTION_SCHEMA_VERSION - (1 : Int).toNat)).foldlM
        (fun d k => convertStep k d) fixtureV1Dict :=
  ⟨by decide,
    (migrate_runs_conversion_chain_in_order fixtureV1Dict 1 rfl (by decide)
      (by decide) (by decide)).1⟩

/-- A collection dict with schema_version 5 (inside the valid range)
and no `skills` key. -/
def v5DictWithoutSkills : CollectionVDict := { schema_version := some 5 }

/-- Counterexample to C1 as stated: this dict has schema version 5,
inside 1..CURRENT_COLLECTION_SCHEMA_VERSION, yet
_migrate_to_latest_yaml_version raises KeyError (at
`del collection_dict['skills']` of the v5 to v6 conversion) instead of
returning a dict with schema_version CURRENT. -/
theorem migrate_can_fail_inside_valid_version_range :
    v5DictWithoutSkills.schema_version = some 5 ∧
    _migrate_to_latest_yaml_version v5DictWithoutSkills =
      .error (.keyError "skills") := by
  refine ⟨rfl, ?_⟩
  have h1 : _migrate_to_latest_yaml_version v5DictWithoutSkills =
      migrateLoop 5 v5DictWithoutSkills := rfl
  rw [h1, migrateLoop_step _ (by decide)]
  rfl

/-- C2.  Collection._migrate_to_latest_yaml_version raises
InvalidInputException when the parsed dict has no schema_version key,
raises the explicit Exception when the schema version is outside
1..CURRENT_COLLECTION_SCHEMA_VERSION, and raises neither of those two
errors for any dict whose schema version lies inside that range (the
only errors possible there are KeyError and AttributeError, raised by
the conversion functions themselves). -/
theorem migrate_error_conditions (d : CollectionVDict) :
    (d.schema_version = none →
      _migrate_to_latest_yaml_version d =
        .error (.invalidInput "Invalid YAML file: no schema version specified.")) ∧
    (∀ v : Int, d.schema_version = some v →
      ¬ (1 ≤ v ∧ v ≤ (CURRENT_COLLECTION_SCHEMA_VERSION : Int)) →
      _migrate_to_latest_yaml_version d =
        .error (.exception
          "Sorry, we can only process v1 to v6 collection YAML files at present.")) ∧
    (∀ v : Int, d.schema_version = some v →
      1 ≤ v → v ≤ (CURRENT_COLLECTION_SCHEMA_VERSION : Int) →
      ∀ s : String,
        _migrate_to_latest_yaml_version d ≠ .error (.invalidInput s) ∧
        _migrate_to_latest_yaml_version d ≠ .error (.exception s)) := by
  refine ⟨?_, ?_, ?_⟩
  · intro h
    rw [_migrate_to_latest_yaml_version, h]
  · intro v hv hrange
    rw [_migrate_to_latest_yaml_version, hv]
    simp only [if_neg hrange]
  · intro v hv h1 h6 s
    have hloop : _migrate_to_latest_yaml_version d = migrateLoop v.toNat d := by
      rw [_migrate_to_latest_yaml_version, hv]
      simp [h1, h6]
    rw [hloop]
    constructor
    · intro h
      rcases migrateLoop_err _ v.toNat d _ rfl h with ⟨k, hk⟩ | ⟨t, ht⟩
      · simp at hk
      · simp at ht
    · intro h
      rcases migrateLoop_err _ v.toNat d _ rfl h with ⟨k, hk⟩ | ⟨t, ht⟩
      · simp at hk
      · simp at ht

/-- Witness for C2: the theorem applied to a dict without a schema
version, one with version 0, and one with version 6. -/
theorem migrate_error_conditions_witness :
    _migrate_to_latest_yaml_version {} =
      .error (.invalidInput "Invalid YAML file: no schema version specified.") ∧
    _migrate_to_latest_yaml_version { schema_version := some 0 } =
      .error (.exception
        "Sorry, we can only process v1 to v6 collection YAML files at present.") ∧
    _migrate_to_latest_yaml_version { schema_version := some 6 } ≠
      .error (.invalidInput "x") ∧
    _migrate_to_latest_yaml_version { schema_version := some 6 } ≠
      .error (.exception "x") :=
  ⟨(migrate_error_conditions {}).1 rfl,
   (migrate_error_conditions _).2.1 0 rfl (by decide),
   ((migrate_error_conditions _).2.2 6 rfl (by decide) (by decide) "x").1,
   ((migrate_error_conditions _).2.2 6 rfl (by decide) (by decide) "x").2⟩

/-- C8 (amended).  update_collection_contents_from_model raises its
explicit Exception exactly when schema_version + 1 exceeds
CURRENT_COLLECTION_SCHEMA_VERSION (i.e. schema_version is at least
CURRENT), and on that path no updated record is produced; when
schema_version is below CURRENT it sets schema_version to
current_version + 1 and replaces collection_contents with the result of
the conversion function for current_version, propagating the KeyError
or AttributeError that the conversion lookup or the conversion itself
may raise. -/
theorem update_contents_branch_behavior
    (vcc : VersionedCollectionContents) (current_version : Nat) :
    (vcc.schema_version + 1 > (CURRENT_COLLECTION_SCHEMA_VERSION : Int) →
      update_collection_contents_from_model vcc current_version =
        .error (.exception
          ("Collection is version " ++ toString vcc.schema_version
            ++ " but current collection schema version is 6"))) ∧
    (vcc.schema_version + 1 ≤ (CURRENT_COLLECTION_SCHEMA_VERSION : Int) →
      ∀ cc, contentsConvertStep current_version vcc.collection_contents = .ok cc →
        update_collection_contents_from_model vcc current_version =
          .ok { schema_version := (current_version : Int) + 1,
                collection_contents := cc }) ∧
    (vcc.schema_version + 1 ≤ (CURRENT_COLLECTION_SCHEMA_VERSION : Int) →
      ∀ e, contentsConvertStep current_version vcc.collection_contents = .error e →
        update_collection_contents_from_model vcc current_version = .error e) := by
  refine ⟨?_, ?_, ?_⟩
  · intro h
    rw [update_collection_contents_from_model, if_pos h]
  · intro h cc hcc
    rw [update_collection_contents_from_model, if_neg (by omega), hcc]
  · intro h e he
    rw [update_collection_contents_from_model, if_neg (by omega), he]

/-- A versioned contents record with schema version 4 (below CURRENT)
whose contents dict lacks the next_skill_id key. -/
def vccBelowCurrent : VersionedCollectionContents :=
  { schema_version := 4, collection_contents := {} }

/-- Counterexample to C8 as stated: this record has schema_version 4,
strictly below CURRENT_COLLECTION_SCHEMA_VERSION, yet
update_collection_contents_from_model raises (KeyError from the v4 to
v5 contents conversion reading the missing next_skill_id key), so the
function does not raise exactly when schema_version is at least
CURRENT. -/
theorem update_contents_can_raise_below_current :
    vccBelowCurrent.schema_version = 4 ∧
    vccBelowCurrent.schema_version + 1 ≤
      (CURRENT_COLLECTION_SCHEMA_VERSION : Int) ∧
    update_collection_contents_from_model vccBelowCurrent 4 =
      .error (.keyError "next_skill_id") := ⟨rfl, by decide, rfl⟩

/-- Witness for C8 (amended): the theorem applied to records with
schema versions 6, 1 and 4. -/
theorem update_contents_branch_behavior_witness :
    update_collection_contents_from_model
        { schema_version := 6, collection_contents := {} } 6 =
      .error (.exception
        "Collection is version 6 but current collection schema version is 6") ∧
    update_collection_contents_from_model
        { schema_version := 1, collection_contents := {} } 1 =
      .ok { schema_version := 2, collection_contents := {} } ∧
    update_collection_contents_from_model vccBelowCurrent 4 =
      .error (.keyError "next_skill_id") :=
  ⟨(update_contents_branch_behavior _ 6).1 (by decide),
   (update_contents_branch_behavior _ 1).2.1 (by decide) {} rfl,
   (update_contents_branch_behavior vccBelowCurrent 4).2.2 (by decide)
     (.keyError "next_skill_id") rfl⟩

lemma node_dict_roundtrip (n : CollectionNode) :
    CollectionNode.from_dict (CollectionNode.to_dict n) = n := rfl

/-- C4.  Collection.deserialize inverts Collection.serialize: under the
(external) datetime string conversions being mutually inverse on the
datetimes stored in the collection, the round trip restores every field
of the Collection, in particular id, title, category, objective,
language_code, tags, schema_version, version, created_on, last_updated
and the nodes with their exploration ids. -/
theorem serialize_deserialize_roundtrip (f : Nat → String)
    (g : String → Nat) (c : Collection)
    (hco : ∀ t, c.created_on = some t → g (f t) = t)
    (hlu : ∀ t, c.last_updated = some t → g (f t) = t) :
    Collection.deserialize g (Collection.serialize f c) = c := by
  have hco' : (c.created_on.map f).map g = c.created_on := by
    cases hc : c.created_on with
    | none => rfl
    | some t => simp [hco t hc]
  have hlu' : (c.last_updated.map f).map g = c.last_updated := by
    cases hc : c.last_updated with
    | none => rfl
    | some t => simp [hlu t hc]
  have hnodes :
      (c.nodes.map CollectionNode.to_dict).map CollectionNode.from_dict =
        c.nodes := by
    rw [List.map_map,
      show (CollectionNode.from_dict ∘ CollectionNode.to_dict) = id from rfl,
      List.map_id]
  unfold Collection.deserialize Collection.serialize Collection.from_dict
    Collection.to_dict
  rw [hnodes, hco', hlu']

/-- A concrete collection exercising the serialization round trip. -/
def roundtripSample : Collection :=
  { id := "cid", title := "A title", category := "A category",
    objective := "An objective", language_code := "en", tags := ["abc"],
    schema_version := 6, nodes := [{ exploration_id := "exp one" },
      { exploration_id := "exp two" }], version := 3,
    created_on := some 7, last_updated := some 7 }

/-- Witness for C4: the round trip at a concrete collection, with
concrete mutually-inverse conversions on the stored datetime 7. -/
theorem serialize_deserialize_roundtrip_witness :
    Collection.deserialize (fun _ => 7)
      (Collection.serialize (fun _ => "d") roundtripSample) =
      roundtripSample :=
  serialize_deserialize_roundtrip (fun _ => "d") (fun _ => 7) roundtripSample
    (by intro t ht; simpa [roundtripSample] using ht)
    (by intro t ht; simpa [roundtripSample] using ht)

lemma findSome?_id_isSome_of_mem {l : List (Option String)}
    {o : Option String} (hmem : o ∈ l) (ho : o.isSome = true) :
    (l.findSome? (fun x => x)).isSome = true := by
  induction l with
  | nil => simp at hmem
  | cons a t ih =>
    rw [List.findSome?]
    cases a with
    | none =>
      rcases List.mem_cons.mp hmem with h | h
      · rw [h] at ho
        simp at ho
      · exact ih h
    | some s => simp

lemma findSome?_eq_none_of_all {α β : Type} {f : α → Option β}
    {l : List α} (h : ∀ a ∈ l, f a = none) : l.findSome? f = none := by
  induction l with
  | nil => rfl
  | cons a t ih =>
    rw [List.findSome?]
    rw [h a (List.mem_cons_self a t)]
    exact ih (fun o ho => h o (List.mem_cons_of_mem a ho))

/-- C5.  With well-typed fields, Collection.validate raises a
ValidationError whenever an exploration id occurs in more than one node,
and whenever schema_version differs from
CURRENT_COLLECTION_SCHEMA_VERSION; and with strict=False a collection
with distinct exploration ids, the current schema version, and
title/category/language_code/tags passing their checks validates
without error. -/
theorem validate_uniqueness_and_schema (rvn : String → String → Option String)
    (ivl : String → Bool) (tagRegexMatch : String → Bool) (c : Collection)
    (strict : Bool) :
    (¬ c.exploration_ids.Nodup →
      (Collection.validate rvn ivl tagRegexMatch c strict).isSome = true) ∧
    (c.schema_version ≠ (CURRENT_COLLECTION_SCHEMA_VERSION : Int) →
      (Collection.validate rvn ivl tagRegexMatch c strict).isSome = true) ∧
    (rvn c.title "the collection title" = none →
      rvn c.category "the collection category" = none →
      c.language_code ≠ "" → ivl c.language_code = true →
      c.tags.Nodup → (∀ t ∈ c.tags, tagError tagRegexMatch t = none) →
      c.schema_version = (CURRENT_COLLECTION_SCHEMA_VERSION : Int) →
      c.exploration_ids.Nodup →
      Collection.validate rvn ivl tagRegexMatch c false = none) := by
  refine ⟨?_, ?_, ?_⟩
  · intro h
    apply findSome?_id_isSome_of_mem (o := some
      "There are explorations referenced in the collection more than once.")
    · unfold Collection.validateChecks
      rw [if_neg h]
      apply List.mem_append_left
      simp
    · rfl
  · intro h
    apply findSome?_id_isSome_of_mem (o := some
      ("Expected schema version to be 6, received "
        ++ toString c.schema_version))
    · unfold Collection.validateChecks
      rw [if_neg h]
      apply List.mem_append_left
      simp
    · rfl
  · intro htitle hcat hlang hivl htags htagerr hschema hexp
    unfold Collection.validate
    apply findSome?_eq_none_of_all
    intro o ho
    unfold Collection.validateChecks at ho
    rw [htitle, hcat, if_neg hlang, hivl, if_pos htags,
      findSome?_eq_none_of_all htagerr, if_pos hschema, if_pos hexp] at ho
    simp at ho
    exact ho

/-- A concrete collection passing every validation check. -/
def validSample : Collection :=
  { id := "cid", title := "A title", category := "A category",
    objective := "An objective", language_code := "en", tags := ["abc"],
    schema_version := 6, nodes := [{ exploration_id := "e1" },
      { exploration_id := "e2" }], version := 0 }

/-- Witness for C5: the theorem applied to concrete collections — one
with a duplicated exploration id, one with a stale schema version, and
a fully valid one. -/
theorem validate_uniqueness_and_schema_witness :
    (Collection.validate (fun _ _ => none) (fun _ => true) (fun _ => true)
      { validSample with nodes := [{ exploration_id := "e1" },
          { exploration_id := "e1" }] } false).isSome = true ∧
    (Collection.validate (fun _ _ => none) (fun _ => true) (fun _ => true)
      { validSample with schema_version := 5 } false).isSome = true ∧
    Collection.validate (fun _ _ => none) (fun _ => true) (fun _ => true)
      validSample false = none :=
  ⟨(validate_uniqueness_and_schema _ _ _ _ false).1 (by decide),
   (validate_uniqueness_and_schema _ _ _ _ false).2.1 (by decide),
   (validate_uniqueness_and_schema _ _ _ _ false).2.2 rfl rfl (by decide)
     rfl (by decide) (by decide) rfl (by decide)⟩

lemma find?_split {α : Type} (p : α → Bool) :
    ∀ (l : List α) (a : α), l.find? p = some a →
      ∃ l₁ l₂, l = l₁ ++ a :: l₂ ∧ (∀ x ∈ l₁, p x = false) ∧ p a = true := by
  intro l
  induction l with
  | nil => intro a h; simp at h
  | cons x t ih =>
    intro a h
    cases hp : p x with
    | true =>
      rw [List.find?_cons, hp] at h
      simp at h
      exact ⟨[], t, by simp [h], by simp, h ▸ hp⟩
    | false =>
      rw [List.find?_cons, hp] at h
      simp only [cond_false] at h
      obtain ⟨l₁, l₂, heq, hall, hpa⟩ := ih a h
      refine ⟨x :: l₁, l₂, by rw [heq]; rfl, ?_, hpa⟩
      intro y hy
      rcases List.mem_cons.mp hy with h' | h'
      · rw [h']
        exact hp
      · exact hall y h'

/-- C6.  Collection.get_next_exploration_id returns the exploration id
of the earliest node whose id is not in completed_exp_ids: when every
node id is completed (in particular for the empty collection) it
returns none; when it returns some id, that id is uncompleted and all
earlier node ids are completed; and when some node id is uncompleted it
does return one. -/
theorem get_next_exploration_id_first_uncompleted (c : Collection)
    (completed_exp_ids : List String) :
    ((∀ e ∈ c.exploration_ids, e ∈ completed_exp_ids) →
      c.get_next_exploration_id completed_exp_ids = none) ∧
    (∀ e, c.get_next_exploration_id completed_exp_ids = some e →
      e ∉ completed_exp_ids ∧
      ∃ l₁ l₂, c.exploration_ids = l₁ ++ e :: l₂ ∧
        ∀ x ∈ l₁, x ∈ completed_exp_ids) ∧
    ((∃ e ∈ c.exploration_ids, e ∉ completed_exp_ids) →
      (c.get_next_exploration_id completed_exp_ids).isSome = true) := by
  refine ⟨?_, ?_, ?_⟩
  · intro h
    rw [Collection.get_next_exploration_id, List.find?_eq_none]
    intro e he
    simp [h e he]
  · intro e h
    rw [Collection.get_next_exploration_id] at h
    obtain ⟨l₁, l₂, heq, hall, hpe⟩ := find?_split _ _ _ h
    refine ⟨by simpa using hpe, l₁, l₂, heq, ?_⟩
    intro x hx
    simpa using hall x hx
  · intro ⟨e, he, hne⟩
    rw [Collection.get_next_exploration_id]
    cases hf : c.exploration_ids.find?
        (fun exp_id => ! completed_exp_ids.contains exp_id) with
    | none =>
      rw [List.find?_eq_none] at hf
      exact absurd (by simpa using hf e he) hne
    | some a => rfl

/-- Witness for C6: the theorem applied to a concrete collection whose
first two explorations are completed, and the fully-completed case. -/
theorem get_next_exploration_id_first_uncompleted_witness :
    (validSample.get_next_exploration_id ["e1", "e2"] = none) ∧
    (validSample.get_next_exploration_id ["e1"]).isSome = true :=
  ⟨(get_next_exploration_id_first_uncompleted validSample ["e1", "e2"]).1
      (by decide),
   (get_next_exploration_id_first_uncompleted validSample ["e1"]).2.2
      ⟨"e2", by decide, by decide⟩⟩

lemma get?_set_self {α : Type} :
    ∀ (l : List α) (i : Nat) (a : α), i < l.length →
      (l.set i a).get? i = some a := by
  intro l
  induction l with
  | nil => intro i a h; simp at h
  | cons x t ih =>
    intro i a h
    cases i with
    | zero => rfl
    | succ n =>
      rw [List.set_cons_succ]
      exact ih n a (by simpa using h)

lemma get?_set_ne {α : Type} :
    ∀ (l : List α) (i k : Nat) (a : α), i ≠ k →
      (l.set i a).get? k = l.get? k := by
  intro l
  induction l with
  | nil => intro i k a _; simp
  | cons x t ih =>
    intro i k a hne
    cases i with
    | zero =>
      cases k with
      | zero => exact absurd rfl hne
      | succ m => rfl
    | succ n =>
      cases k with
      | zero => rfl
      | succ m =>
        rw [List.set_cons_succ]
        exact ih n m a (by omega)

lemma get?_is_some_of_lt {α : Type} :
    ∀ (l : List α) (i : Nat), i < l.length → ∃ a, l.get? i = some a := by
  intro l
  induction l with
  | nil => intro i h; simp at h
  | cons x t ih =>
    intro i h
    cases i with
    | zero => exact ⟨x, rfl⟩
    | succ n => exact ih n (by simpa using h)

lemma getD_eq_get?_getD {α : Type} :
    ∀ (l : List α) (i : Nat) (d : α), l.getD i d = (l.get? i).getD d := by
  intro l
  induction l with
  | nil => intro i d; rfl
  | cons x t ih =>
    intro i d
    cases i with
    | zero => rfl
    | succ n => exact ih n d

/-- C7.  Collection.swap_nodes raises ValueError exactly when the two
indices are equal; for distinct in-range indices it returns the
collection with the two nodes exchanged, every node at another position
unchanged, and every other field (the whole record except nodes)
unchanged. -/
theorem swap_nodes_exchanges_only_the_two (c : Collection)
    (first_index second_index : Int) :
    (first_index = second_index →
      c.swap_nodes first_index second_index =
        .error (.valueError "Both indices point to the same collection node.")) ∧
    (first_index ≠ second_index → ∀ m,
      c.swap_nodes first_index second_index ≠ .error (.valueError m)) ∧
    (first_index ≠ second_index →
      0 ≤ first_index → first_index < (c.nodes.length : Int) →
      0 ≤ second_index → second_index < (c.nodes.length : Int) →
      ∃ nodes',
        c.swap_nodes first_index second_index = .ok { c with nodes := nodes' } ∧
        nodes'.get? first_index.toNat = c.nodes.get? second_index.toNat ∧
        nodes'.get? second_index.toNat = c.nodes.get? first_index.toNat ∧
        (∀ k, k ≠ first_index.toNat → k ≠ second_index.toNat →
          nodes'.get? k = c.nodes.get? k) ∧
        nodes'.length = c.nodes.length) := by
  refine ⟨?_, ?_, ?_⟩
  · intro h
    rw [Collection.swap_nodes, if_pos h]
  · intro hne m
    rw [Collection.swap_nodes, if_neg hne]
    cases pyIndex c.nodes.length first_index with
    | none => simp
    | some i =>
      cases pyIndex c.nodes.length second_index with
      | none => simp
      | some j => simp
  · intro hne h0i h1i h0j h1j
    have hi : pyIndex c.nodes.length first_index = some first_index.toNat := by
      rw [pyIndex, if_pos ⟨h0i, h1i⟩]
    have hj : pyIndex c.nodes.length second_index = some second_index.toNat := by
      rw [pyIndex, if_pos ⟨h0j, h1j⟩]
    have hij : first_index.toNat ≠ second_index.toNat := by omega
    have hiLen : first_index.toNat < c.nodes.length := by omega
    have hjLen : second_index.toNat < c.nodes.length := by omega
    refine ⟨(c.nodes.set first_index.toNat
        (c.nodes.getD second_index.toNat default)).set second_index.toNat
        (c.nodes.getD first_index.toNat default), ?_, ?_, ?_, ?_, ?_⟩
    · rw [Collection.swap_nodes, if_neg hne, hi, hj]
    · rw [get?_set_ne _ _ _ _ (fun h => hij h.symm),
        get?_set_self _ _ _ (by simpa using hiLen)]
      obtain ⟨b, hb⟩ := get?_is_some_of_lt c.nodes second_index.toNat hjLen
      rw [hb, getD_eq_get?_getD, hb]
      rfl
    · rw [get?_set_self _ _ _ (by simpa using hjLen)]
      obtain ⟨b, hb⟩ := get?_is_some_of_lt c.nodes first_index.toNat hiLen
      rw [hb, getD_eq_get?_getD, hb]
      rfl
    · intro k hki hkj
      rw [get?_set_ne _ _ _ _ (fun h => hkj h.symm),
        get?_set_ne _ _ _ _ (fun h => hki h.symm)]
    · simp

/-- Witness for C7: the theorem applied to a concrete three-node
collection at indices 1 = 1 (ValueError), 0 and 5 (no ValueError), and
0 and 2 (a successful in-range swap). -/
theorem swap_nodes_exchanges_only_the_two_witness :
    (Collection.swap_nodes
      { validSample with nodes := [{ exploration_id := "e1" },
          { exploration_id := "e2" }, { exploration_id := "e3" }] } 1 1 =
      .error (.valueError "Both indices point to the same collection node.")) ∧
    (Collection.swap_nodes
      { validSample with nodes := [{ exploration_id := "e1" },
          { exploration_id := "e2" }, { exploration_id := "e3" }] } 0 5 ≠
      .error (.valueError "Both indices point to the same collection node.")) ∧
    ∃ nodes',
      Collection.swap_nodes
        { validSample with nodes := [{ exploration_id := "e1" },
            { exploration_id := "e2" }, { exploration_id := "e3" }] } 0 2 =
        .ok { validSample with nodes := nodes' } ∧
      nodes'.get? (0 : Int).toNat =
        [CollectionNode.mk "e1", CollectionNode.mk "e2",
          CollectionNode.mk "e3"].get? (2 : Int).toNat :=
  ⟨(swap_nodes_exchanges_only_the_two _ 1 1).1 rfl,
   (swap_nodes_exchanges_only_the_two _ 0 5).2.1 (by decide) _,
   by
     obtain ⟨nodes', h1, h2, _⟩ :=
       (swap_nodes_exchanges_only_the_two
         { validSample with nodes := [{ exploration_id := "e1" },
             { exploration_id := "e2" }, { exploration_id := "e3" }] } 0 2).2.2
         (by decide) (by decide) (by decide) (by decide) (by decide)
     exact ⟨nodes', h1, h2⟩⟩

/-- C9.  CollectionSummary.is_editable_by returns false for user_id
None (the default), community-owned or not; for a present user_id it
returns true exactly when the user is an editor, an owner, or the
collection is community-owned. -/
theorem is_editable_by_semantics (s : CollectionSummary) :
    s.is_editable_by none = false ∧
    ∀ u, (s.is_editable_by (some u) = true ↔
      (u ∈ s.editor_ids ∨ u ∈ s.owner_ids ∨ s.community_owned = true)) := by
  refine ⟨rfl, ?_⟩
  intro u
  simp [CollectionSummary.is_editable_by, or_assoc]

/-- A concrete collection summary. -/
def summarySample : CollectionSummary :=
  { id := "cid", title := "t", category := "c", objective := "o",
    language_code := "en", tags := [], status := "private",
    community_owned := false, owner_ids := ["u1"], editor_ids := ["u2"],
    viewer_ids := [], contributor_ids := ["u1"],
    contributors_summary := [("u1", 2)], version := 1, node_count := 2 }

/-- Witness for C9: the theorem applied to a concrete summary. -/
theorem is_editable_by_semantics_witness :
    summarySample.is_editable_by none = false ∧
    summarySample.is_editable_by (some "u2") = true :=
  ⟨(is_editable_by_semantics summarySample).1,
   ((is_editable_by_semantics summarySample).2 "u2").mpr
     (.inl (by decide))⟩

lemma dictGetD_set_self :
    ∀ (l : List (String × Nat)) (k : String) (v d : Nat),
      dictGetD (dictSet l k v) k d = v := by
  intro l
  induction l with
  | nil => intro k v d; simp [dictSet, dictGetD]
  | cons p t ih =>
    intro k v d
    by_cases h : p.1 = k
    · simp [dictSet, h, dictGetD]
    · obtain ⟨k', v'⟩ := p
      simp only at h
      simp [dictSet, dictGetD, h, ih]

lemma dictGetD_set_ne :
    ∀ (l : List (String × Nat)) (k k' : String) (v d : Nat), k ≠ k' →
      dictGetD (dictSet l k v) k' d = dictGetD l k' d := by
  intro l
  induction l with
  | nil => intro k k' v d h; simp [dictSet, dictGetD, h]
  | cons p t ih =>
    intro k k' v d h
    obtain ⟨k0, v0⟩ := p
    by_cases h0 : k0 = k
    · simp [dictSet, dictGetD, h0, h]
    · simp [dictSet, dictGetD, h0, ih _ _ _ _ h]

/-- C10.  CollectionSummary.add_contribution_by_user leaves the
contributors summary unchanged for a system user, increments the
contributor entry by exactly one (an absent entry counting as zero) and
leaves every other entry unchanged for a non-system user, and in both
cases reassigns contributor_ids to the key list of the contributors
summary. -/
theorem add_contribution_by_user_updates (system_user_ids : List String)
    (s : CollectionSummary) (contributor_id : String) :
    (contributor_id ∈ system_user_ids →
      (s.add_contribution_by_user system_user_ids
        contributor_id).contributors_summary = s.contributors_summary) ∧
    (contributor_id ∉ system_user_ids →
      dictGetD (s.add_contribution_by_user system_user_ids
          contributor_id).contributors_summary contributor_id 0 =
        dictGetD s.contributors_summary contributor_id 0 + 1 ∧
      ∀ k, k ≠ contributor_id →
        dictGetD (s.add_contribution_by_user system_user_ids
            contributor_id).contributors_summary k 0 =
          dictGetD s.contributors_summary k 0) ∧
    (s.add_contribution_by_user system_user_ids
        contributor_id).contributor_ids =
      dictKeys (s.add_contribution_by_user system_user_ids
        contributor_id).contributors_summary := by
  refine ⟨?_, ?_, rfl⟩
  · intro h
    have hc : system_user_ids.contains contributor_id = true := by
      simpa using h
    simp only [CollectionSummary.add_contribution_by_user]
    rw [if_pos hc]
  · intro h
    have hc : ¬ (system_user_ids.contains contributor_id = true) := by
      simpa using h
    refine ⟨?_, ?_⟩
    · simp only [CollectionSummary.add_contribution_by_user]
      rw [if_neg hc, dictGetD_set_self]
    · intro k hk
      simp only [CollectionSummary.add_contribution_by_user]
      rw [if_neg hc, dictGetD_set_ne _ _ _ _ _ (fun he => hk he.symm)]

/-- Witness for C10: the theorem applied to a concrete summary with a
system user and with a fresh contributor. -/
theorem add_contribution_by_user_updates_witness :
    (summarySample.add_contribution_by_user ["admin"]
      "admin").contributors_summary = summarySample.contributors_summary ∧
    dictGetD (summarySample.add_contribution_by_user ["admin"]
        "u3").contributors_summary "u3" 0 =
      dictGetD summarySample.contributors_summary "u3" 0 + 1 ∧
    (summarySample.add_contribution_by_user ["admin"]
        "admin").contributor_ids =
      dictKeys (summarySample.add_contribution_by_user ["admin"]
        "admin").contributors_summary :=
  ⟨(add_contribution_by_user_updates ["admin"] summarySample "admin").1
      (by decide),
   ((add_contribution_by_user_updates ["admin"] summarySample "u3").2.1
      (by decide)).1,
   (add_contribution_by_user_updates ["admin"] summarySample "admin").2.2⟩

/-- C3.  _evaluate_feature_flag_values_for_context raises
FeatureFlagNotFoundException if and only if the requested names include
one outside ALL_FEATURES_NAMES_SET; when every name is known it returns
the dict keyed exactly by the requested names, each mapped to the
evaluation of its registered parameter in the context. -/
theorem evaluate_feature_flags_unknown_iff {Ctx : Type}
    (reg : FeatureFlagRegistry Ctx) (feature_names : List String)
    (context : Ctx) :
    ((∃ n ∈ feature_names, n ∉ reg.all_features_names) ↔
      ∃ u, _evaluate_feature_flag_values_for_context reg feature_names
        context = .error (.featureFlagNotFound u)) ∧
    ((∀ n ∈ feature_names, n ∈ reg.all_features_names) →
      _evaluate_feature_flag_values_for_context reg feature_names context =
        .ok (feature_names.map (fun n => (n, reg.evaluate n context)))) := by
  have hmem : ∀ n, (! reg.all_features_names.contains n) = true ↔
      n ∉ reg.all_features_names := by
    intro n
    simp
  constructor
  · constructor
    · intro ⟨n, hn, hout⟩
      have hpos : 0 < (feature_names.filter
          (fun n => ! reg.all_features_names.contains n)).length := by
        apply List.length_pos.mpr
        intro hnil
        have := List.filter_eq_nil_iff.mp hnil n hn
        exact this ((hmem n).mpr hout)
      refine ⟨feature_names.filter
        (fun n => ! reg.all_features_names.contains n), ?_⟩
      rw [_evaluate_feature_flag_values_for_context]
      simp only [if_pos hpos]
    · intro ⟨u, hu⟩
      rw [_evaluate_feature_flag_values_for_context] at hu
      by_cases hpos : 0 < (feature_names.filter
          (fun n => ! reg.all_features_names.contains n)).length
      · obtain ⟨n, hn⟩ := List.exists_mem_of_length_pos hpos
        obtain ⟨hn1, hn2⟩ := List.mem_filter.mp hn
        exact ⟨n, hn1, (hmem n).mp hn2⟩
      · rw [if_neg hpos] at hu
        simp at hu
  · intro hall
    rw [_evaluate_feature_flag_values_for_context]
    rw [if_neg (by simpa using hall)]

/-- A concrete registry with two feature flags over a unit context,
where only flag one evaluates to true. -/
def registrySample : FeatureFlagRegistry Unit :=
  { all_features_names := ["flag_one", "flag_two"],
    evaluate := fun n _ => n == "flag_one" }

/-- Witness for C3: the theorem applied to the concrete registry, both
for a fully known request and for one with an unknown name. -/
theorem evaluate_feature_flags_unknown_iff_witness :
    _evaluate_feature_flag_values_for_context registrySample
      ["flag_one", "flag_two"] () =
      .ok [("flag_one", true), ("flag_two", false)] ∧
    ¬ (∃ n ∈ (["flag_one"] : List String),
        n ∉ registrySample.all_features_names) :=
  ⟨by
    have h := (evaluate_feature_flags_unknown_iff registrySample
      ["flag_one", "flag_two"] ()).2 (by decide)
    simpa [registrySample] using h,
   fun he =>
    have h := (evaluate_feature_flags_unknown_iff registrySample
      ["flag_one"] ()).1.mp he
    by
      obtain ⟨u, hu⟩ := h
      rw [show _evaluate_feature_flag_values_for_context registrySample
          ["flag_one"] () = .ok [("flag_one", true)] from rfl] at hu
      exact absurd hu (by simp)⟩

end Oppia
